import Mathlib

/-!
Verification of the Autocaliweb installer's installation-state classification
and migration subsystem (`scripts/manual_install_acw.sh`).

The shell functions are embedded shallowly: filesystem and process facts that
the script observes (file existence, directory sizes, `df` output, `pgrep`
results, user replies) are passed in explicitly as booleans, naturals and
oracle functions, and each shell function becomes a pure Lean function on
those inputs.  `exit 1` sites are modelled by distinguished result values,
`return 1` sites by non-exiting failure codes, so that "aborts the process"
and "returns an error to its caller" stay distinguishable.
-/

/-- Hard-coded legacy default install directory (`LEGACY_INSTALL_DIR="/app/autocaliweb"`). -/
def LEGACY_INSTALL_DIR : String := "/app/autocaliweb"

/-- Hard-coded legacy default config directory (`LEGACY_CONFIG_DIR="/config"`). -/
def LEGACY_CONFIG_DIR : String := "/config"

/-- Hard-coded legacy default Calibre library directory (`LEGACY_CALIBRE_LIB_DIR="/calibre-library"`). -/
def LEGACY_CALIBRE_LIB_DIR : String := "/calibre-library"

/-- The six installation scenarios assigned to `SCENARIO` by
`detect_and_classify_installation`. -/
inductive Scenario where
  | noSource
  | gitRepoWithTemplate
  | gitRepoWithoutTemplate
  | extractedWithTemplate
  | extractedWithoutTemplate
  | outsideWithoutTemplate
deriving DecidableEq, Repr

/-- Scenario selection from `detect_and_classify_installation`, embedding the
`if`-chain at the end of the function.  Inputs are the four filesystem facts
the chain reads: `is_git_repo` (git probe succeeded), `has_template`
(`$INSTALL_DIR/library/app.db` exists), `markerFileExists`
(`$INSTALL_DIR/requirements.txt` exists) and `sourcePresent`
(`SCRIPT_SOURCE_DIR` non-empty after `detect_script_location`). -/
def detect_and_classify_installation_scenario
    (is_git_repo has_template markerFileExists sourcePresent : Bool) : Scenario :=
  if is_git_repo then
    if has_template then .gitRepoWithTemplate else .gitRepoWithoutTemplate
  else if has_template then .extractedWithTemplate
  else if markerFileExists then .extractedWithoutTemplate
  else if sourcePresent then .outsideWithoutTemplate
  else .noSource

/-- Modelled from the spec (section 4.3): the decision table for the scenario
resolver, evaluated top-down with first match winning, where
`sourcePresent = false` short-circuits to `NoSource`.  Used only to compare
the spec's table against the code's `if`-chain. -/
def specScenarioTable
    (sourcePresent isGitRepo hasTemplate markerFileExists : Bool) : Scenario :=
  if !sourcePresent then .noSource
  else if isGitRepo && hasTemplate then .gitRepoWithTemplate
  else if isGitRepo && !hasTemplate then .gitRepoWithoutTemplate
  else if hasTemplate then .extractedWithTemplate
  else if markerFileExists then .extractedWithoutTemplate
  else .outsideWithoutTemplate

/-- Claim C1 (corrected): the code's scenario `if`-chain checks
`is_git_repo`, `has_template` and the marker file before source presence, so
it agrees with the section 4.3 decision table exactly when the source is
present or all three earlier checks are false; `sourcePresent = false` does
not short-circuit to `NoSource`. -/
theorem detect_scenario_matches_spec_table_iff
    (g t m s : Bool) :
    detect_and_classify_installation_scenario g t m s = specScenarioTable s g t m
      ↔ (s = true ∨ (g = false ∧ t = false ∧ m = false)) := by
  revert g t m s
  decide

/-- Counterexample to claim C1 as stated: with `sourcePresent = false`,
`isGitRepo = true`, `hasTemplate = true` the code resolves to
`GitRepoWithTemplate`, not the `NoSource` demanded by the decision table. -/
theorem detect_scenario_no_short_circuit :
    detect_and_classify_installation_scenario true true false false
        = .gitRepoWithTemplate
      ∧ specScenarioTable false true true false = .noSource
      ∧ detect_and_classify_installation_scenario true true false false
          ≠ specScenarioTable false true true false := by
  decide

/-- Row of the `settings` table of `app.db`, restricted to the columns
`update_app_db_settings` reads or writes. -/
structure AcwSettings where
  config_logfile : String
  config_access_logfile : String
  config_calibre_dir : String
  config_kepubifypath : String
  config_converterpath : String
  config_binariesdir : String
  config_rarfile_location : String
deriving DecidableEq, Repr

/-- Environment facts `update_app_db_settings` consults: the target config and
library directories, the detected binary paths, and the `[[ -d ... ]]` test on
the stored Calibre directory. -/
structure AcwToolEnv where
  configDir : String
  calibreLibDir : String
  kepubifyPath : String
  ebookConvertPath : String
  calibreBinDir : String
  unrarPath : String
  dirExists : String → Bool

/-- Embedding of `update_app_db_settings` (the `settings`-row effect of its
sequence of `sqlite3 UPDATE` statements, assuming `app.db` exists): the
script first reads `CURRENT_LOGFILE`, `CURRENT_ACCESS_LOGFILE` and
`CURRENT_CALIBRE_DIR` from the stored row, then overwrites the binary paths
unconditionally, rewrites `config_logfile`, `config_access_logfile` and
`config_calibre_dir` only when the pre-read value is one of the hard-coded
invalid placeholders (for the Calibre directory, also when the stored
directory does not exist), and finally overwrites
`config_rarfile_location`. -/
def update_app_db_settings (env : AcwToolEnv) (s : AcwSettings) : AcwSettings :=
  let currentLogfile := s.config_logfile
  let currentAccessLogfile := s.config_access_logfile
  let currentCalibreDir := s.config_calibre_dir
  { config_logfile :=
      if currentLogfile = "" ∨ currentLogfile = "autocaliweb.log"
          ∨ currentLogfile = "/tmp/autocaliweb.log"
          ∨ currentLogfile = "/config/autocaliweb.log" then
        env.configDir ++ "/autocaliweb.log"
      else currentLogfile
    config_access_logfile :=
      if currentAccessLogfile = "" ∨ currentAccessLogfile = "access.log"
          ∨ currentAccessLogfile = "/tmp/access.log"
          ∨ currentAccessLogfile = "/config/access.log" then
        env.configDir ++ "/access.log"
      else currentAccessLogfile
    config_calibre_dir :=
      if currentCalibreDir = "" ∨ currentCalibreDir = "/"
          ∨ currentCalibreDir = "/calibre"
          ∨ env.dirExists currentCalibreDir = false then
        env.calibreLibDir
      else currentCalibreDir
    config_kepubifypath := env.kepubifyPath
    config_converterpath := env.ebookConvertPath
    config_binariesdir := env.calibreBinDir
    config_rarfile_location := env.unrarPath }

/-- Known-invalid placeholder values for `config_logfile` from the
`LOG FILE CHECK` branch of `update_app_db_settings`. -/
def invalidLogfileValues : List String :=
  ["", "autocaliweb.log", "/tmp/autocaliweb.log", "/config/autocaliweb.log"]

/-- Claim C2: `update_app_db_settings` preserves a stored `config_logfile`
outside the known-invalid set byte for byte, and rewrites a stored value
inside that set to `<configDir>/autocaliweb.log`. -/
theorem update_app_db_settings_logfile_preserve (env : AcwToolEnv) (s : AcwSettings) :
    (s.config_logfile ∉ invalidLogfileValues →
      (update_app_db_settings env s).config_logfile = s.config_logfile)
    ∧ (s.config_logfile ∈ invalidLogfileValues →
      (update_app_db_settings env s).config_logfile
        = env.configDir ++ "/autocaliweb.log") := by
  constructor
  · intro h
    simp only [invalidLogfileValues, List.mem_cons, List.not_mem_nil, or_false,
      not_or, List.mem_singleton] at h
    obtain ⟨h1, h2, h3, h4⟩ := h
    simp [update_app_db_settings, h1, h2, h3, h4]
  · intro h
    simp only [invalidLogfileValues, List.mem_cons, List.not_mem_nil, or_false,
      List.mem_singleton] at h
    simp only [update_app_db_settings]
    rw [if_pos (by tauto)]

/-- Witness for C2 at concrete inputs: a customized absolute log path is
preserved, the legacy Docker placeholder is rewritten. -/
theorem update_app_db_settings_logfile_preserve_witness :
    (update_app_db_settings
        ⟨"/etc/autocaliweb", "/var/lib/acw", "/usr/bin/kepubify",
          "/usr/bin/ebook-convert", "/usr/bin", "/usr/bin/unrar", fun _ => true⟩
        ⟨"/srv/logs/my.log", "", "", "", "", "", ""⟩).config_logfile
      = "/srv/logs/my.log"
    ∧ (update_app_db_settings
        ⟨"/etc/autocaliweb", "/var/lib/acw", "/usr/bin/kepubify",
          "/usr/bin/ebook-convert", "/usr/bin", "/usr/bin/unrar", fun _ => true⟩
        ⟨"/config/autocaliweb.log", "", "", "", "", "", ""⟩).config_logfile
      = "/etc/autocaliweb/autocaliweb.log" :=
  ⟨(update_app_db_settings_logfile_preserve _ _).1 (by decide),
   (update_app_db_settings_logfile_preserve _ _).2 (by decide)⟩

/-- Outcome of `check_disk_space`: `fatalExit` models its `exit 1`,
`warnContinue` the warn-only `return 0` taken when `ALLOW_LOW_SPACE=1`,
`dfError` the `return 1` taken when `df` produced no output, and `pass` the
normal `return 0`. -/
inductive SpaceCheckResult where
  | pass
  | warnContinue
  | dfError
  | fatalExit
deriving DecidableEq, Repr

/-- Embedding of `check_disk_space`: `availKb` is the `df -P -k` available
column for the resolved check path (`none` when `df` fails), converted to
whole megabytes by `/ 1024` before comparison with the requirement;
`allowLowSpace` is the `ALLOW_LOW_SPACE` flag (the function's `dry_run`). -/
def check_disk_space (requiredMb : Nat) (availKb : Option Nat)
    (allowLowSpace : Bool) : SpaceCheckResult :=
  match availKb with
  | none => .dfError
  | some kb =>
    let availableMb := kb / 1024
    if availableMb < requiredMb then
      if allowLowSpace then .warnContinue else .fatalExit
    else .pass

/-- Required-space estimate for the migration from
`detect_existing_legacy_installation`:
`required_for_migration_mb=$((total_legacy_size_mb * 120 / 100))`. -/
def requiredMigrationMb (totalLegacySizeMb : Nat) : Nat :=
  totalLegacySizeMb * 120 / 100

/-- Claim C4: selected legacy directories totaling 1000 MB give a required
estimate of exactly 1200 MB, and whenever the available megabytes on a target
mount point are below the requirement, `check_disk_space` exits the process
(`fatalExit`) with the low-space-override flag unset and only warns and
returns success (`warnContinue`) with it set. -/
theorem migration_space_check_behaviour (requiredMb availKb : Nat)
    (h : availKb / 1024 < requiredMb) :
    requiredMigrationMb 1000 = 1200
    ∧ check_disk_space requiredMb (some availKb) false = .fatalExit
    ∧ check_disk_space requiredMb (some availKb) true = .warnContinue := by
  refine ⟨by decide, ?_, ?_⟩ <;> simp [check_disk_space, h]

/-- Witness for C4: a 1200 MB requirement against a mount with 1100 MB
(1126400 KB) available. -/
theorem migration_space_check_behaviour_witness :
    requiredMigrationMb 1000 = 1200
    ∧ check_disk_space 1200 (some 1126400) false = .fatalExit
    ∧ check_disk_space 1200 (some 1126400) true = .warnContinue :=
  migration_space_check_behaviour 1200 1126400 (by decide)

/-- Embedding of `get_total_directory_size_mb`: `dirSizeMb dir` is the
`du -s --block-size=1M` size of `dir` in MB when `dir` is an existing
directory and `none` otherwise.  The script tests `[[ -d "$1" ]]` on the
first argument only and echoes `0` when that test fails; otherwise it sums
the `du` lines, where missing directories produce no line (errors are sent
to `/dev/null`). -/
def get_total_directory_size_mb (dirSizeMb : String → Option Nat)
    (args : List String) : Nat :=
  match args with
  | [] => 0
  | dir :: _ =>
    if (dirSizeMb dir).isSome then
      (args.map (fun a => (dirSizeMb a).getD 0)).sum
    else 0

/-- Claim C10: when the first argument of `get_total_directory_size_mb` is
not an existing directory the helper returns 0 and ignores every remaining
argument, so a migration plan whose first measured legacy directory is
missing gets a required-space estimate of 0 MB regardless of the sizes of
the other selected directories. -/
theorem get_total_directory_size_mb_first_arg_missing
    (dirSizeMb : String → Option Nat) (dir : String) (rest : List String)
    (h : dirSizeMb dir = none) :
    get_total_directory_size_mb dirSizeMb (dir :: rest) = 0
    ∧ requiredMigrationMb (get_total_directory_size_mb dirSizeMb (dir :: rest)) = 0 := by
  have h0 : get_total_directory_size_mb dirSizeMb (dir :: rest) = 0 := by
    simp [get_total_directory_size_mb, h]
  exact ⟨h0, by rw [h0]; decide⟩

/-- Witness for C10: the first directory is missing while the second exists
with 500 MB of data, yet the total is 0. -/
theorem get_total_directory_size_mb_first_arg_missing_witness :
    get_total_directory_size_mb
        (fun d => if d = "/config" then some 500 else none)
        ["/app/autocaliweb", "/config"] = 0
    ∧ requiredMigrationMb (get_total_directory_size_mb
        (fun d => if d = "/config" then some 500 else none)
        ["/app/autocaliweb", "/config"]) = 0 :=
  get_total_directory_size_mb_first_arg_missing _ _ _ (by decide)

/-- Installation-state globals set by the first half of
`detect_and_classify_installation`: `EXISTING_INSTALLATION`,
`IS_LEGACY_MIGRATION`, `IS_UPDATE` and `CURR_INSTALL_PATH` (`none` when the
script never assigns it, i.e. on a fresh install). -/
structure InstallationState where
  existingInstallation : Bool
  isLegacyMigration : Bool
  isUpdate : Bool
  currInstallPath : Option String
deriving DecidableEq, Repr

/-- Test for `grep "^ACW_INSTALL_DIR"`: the line starts with the key
(character-list prefix, matching grep's anchored literal pattern). -/
def matchesAcwInstallDirKey (l : String) : Bool :=
  "ACW_INSTALL_DIR".data.isPrefixOf l.data

/-- Result of `grep "^ACW_INSTALL_DIR" /etc/autocaliweb/environment`: all
lines starting with the key, joined by newlines (the empty string when no
line matches). -/
def grepAcwInstallDir (envLines : List String) : String :=
  String.intercalate "\n" (envLines.filter matchesAcwInstallDirKey)

/-- Shell parameter expansion `${CONFIG_LINE#*=}`: remove the shortest prefix
ending at the first `=`; a string without `=` is returned unchanged. -/
def stripThroughFirstEq (s : String) : String :=
  match s.splitOn "=" with
  | [] => s
  | [_] => s
  | _ :: rest => String.intercalate "=" rest

/-- Embedding of the prober half of `detect_and_classify_installation`:
`unitFileExists` is `[[ -f /etc/systemd/system/autocaliweb.service ]]`,
`envFileExists` is `[[ -f /etc/autocaliweb/environment ]]`, and `envLines`
are the lines of that environment file. -/
def detect_and_classify_installation_probe
    (unitFileExists envFileExists : Bool) (envLines : List String) :
    InstallationState :=
  let existing := unitFileExists
  let isUpdate := unitFileExists
  let isLegacy := unitFileExists && !envFileExists
  let currPath : Option String :=
    if isUpdate then
      if isLegacy then some LEGACY_INSTALL_DIR
      else some (stripThroughFirstEq (grepAcwInstallDir envLines))
    else none
  ⟨existing, isLegacy, isUpdate, currPath⟩

/-- Claim C7: without a service unit file the prober reports a fresh install
(`isExistingInstallation = false`, `isUpdate = false`); with a unit file but
no persisted environment file it reports a legacy migration with the
hard-coded legacy install path; with both files present it reports a modern
install whose current path is the substring after the first `=` of the line
matching the `ACW_INSTALL_DIR` key. -/
theorem detect_and_classify_installation_probe_classification
    (envFileExists : Bool) (envLines freshLines legacyLines : List String)
    (line : String)
    (hgrep : envLines.filter matchesAcwInstallDirKey = [line]) :
    ((detect_and_classify_installation_probe false envFileExists freshLines).existingInstallation = false
      ∧ (detect_and_classify_installation_probe false envFileExists freshLines).isUpdate = false)
    ∧ ((detect_and_classify_installation_probe true false legacyLines).isLegacyMigration = true
      ∧ (detect_and_classify_installation_probe true false legacyLines).currInstallPath
          = some LEGACY_INSTALL_DIR)
    ∧ ((detect_and_classify_installation_probe true true envLines).isLegacyMigration = false
      ∧ (detect_and_classify_installation_probe true true envLines).currInstallPath
          = some (stripThroughFirstEq line)) := by
  refine ⟨⟨rfl, rfl⟩, ⟨rfl, rfl⟩, ⟨rfl, ?_⟩⟩
  have hsingle : String.intercalate "\n" [line] = line := rfl
  simp [detect_and_classify_installation_probe, grepAcwInstallDir, hgrep, hsingle]

/-- Witness for C7 on a concrete environment file holding
`ACW_INSTALL_DIR=/opt/autocaliweb`. -/
theorem detect_and_classify_installation_probe_classification_witness :
    ((detect_and_classify_installation_probe false true []).existingInstallation = false
      ∧ (detect_and_classify_installation_probe false true []).isUpdate = false)
    ∧ ((detect_and_classify_installation_probe true false []).isLegacyMigration = true
      ∧ (detect_and_classify_installation_probe true false []).currInstallPath
          = some LEGACY_INSTALL_DIR)
    ∧ ((detect_and_classify_installation_probe true true
          ["ACW_INSTALL_DIR=/opt/autocaliweb", "ACW_CONFIG_DIR=/etc/autocaliweb"]).isLegacyMigration = false
      ∧ (detect_and_classify_installation_probe true true
          ["ACW_INSTALL_DIR=/opt/autocaliweb", "ACW_CONFIG_DIR=/etc/autocaliweb"]).currInstallPath
          = some (stripThroughFirstEq "ACW_INSTALL_DIR=/opt/autocaliweb")) :=
  detect_and_classify_installation_probe_classification true
    ["ACW_INSTALL_DIR=/opt/autocaliweb", "ACW_CONFIG_DIR=/etc/autocaliweb"]
    [] [] "ACW_INSTALL_DIR=/opt/autocaliweb" (by decide)

/-- Signals issued by the kill loop of `stop_autocaliweb_service`:
`kill -TERM` on the first attempt, `kill -KILL` afterwards. -/
inductive KillSignal where
  | sigterm
  | sigkill
deriving DecidableEq, Repr

/-- Signal chosen for a given attempt number in `stop_autocaliweb_service`
(`attempt 1` sends SIGTERM, attempts 2 and 3 send SIGKILL). -/
def signalForAttempt (attempt : Nat) : KillSignal :=
  if attempt = 1 then .sigterm else .sigkill

/-- Result of `stop_autocaliweb_service`: how many signal rounds were issued,
which signals, and the shell return status (`success = true` models
`return 0`, `success = false` models `return 1`; the function never calls
`exit`, so a failure is reported to the caller rather than aborting the
installation). -/
structure StopResult where
  roundsIssued : Nat
  signalsIssued : List KillSignal
  success : Bool
deriving DecidableEq, Repr

/-- Kill loop of `stop_autocaliweb_service` (`while attempt -lt max_attempts`
with `max_attempts=3`): each round increments the attempt counter, sends the
round's signal, sleeps, and rechecks `pgrep`; `alive n` tells whether the
`pgrep` recheck after `n` rounds still finds processes.  `fuel` counts the
remaining loop iterations. -/
def stopKillLoop (alive : Nat → Bool) : Nat → Nat → List KillSignal → StopResult
  | 0, attempt, sigs => ⟨attempt, sigs, false⟩
  | fuel + 1, attempt, sigs =>
    let attempt' := attempt + 1
    let sigs' := sigs ++ [signalForAttempt attempt']
    if alive attempt' then stopKillLoop alive fuel attempt' sigs'
    else ⟨attempt', sigs', true⟩

/-- Embedding of `stop_autocaliweb_service` after the initial
`systemctl stop` attempt: `alive 0` is the first `pgrep` for surviving
worker processes; when it finds none the function returns success having
issued no signals, otherwise it runs the three-round kill loop. -/
def stop_autocaliweb_service (alive : Nat → Bool) : StopResult :=
  if alive 0 then stopKillLoop alive 3 0 [] else ⟨0, [], true⟩

/-- Bound for the kill loop: it can add at most `fuel` further rounds to the
attempt counter. -/
theorem stopKillLoop_rounds_le (alive : Nat → Bool) :
    ∀ fuel attempt sigs,
      (stopKillLoop alive fuel attempt sigs).roundsIssued ≤ attempt + fuel := by
  intro fuel
  induction fuel with
  | zero => intro attempt sigs; simp [stopKillLoop]
  | succ n ih =>
    intro attempt sigs
    simp only [stopKillLoop]
    split
    · exact le_trans (ih _ _) (by omega)
    · simp only [StopResult.mk.injEq]
      omega

/-- Claim C5: the stop routine issues at most three signal rounds, round 1
SIGTERM and later rounds SIGKILL; when the processes disappear after exactly
2 rounds it returns success having issued exactly the 2 rounds
`[SIGTERM, SIGKILL]`; when all rounds are exhausted with processes still
alive it returns an error status (a `return 1`, not a process abort) after
the full 3 rounds `[SIGTERM, SIGKILL, SIGKILL]`. -/
theorem stop_autocaliweb_service_rounds (alive alive2 aliveAll : Nat → Bool)
    (h20 : alive2 0 = true) (h21 : alive2 1 = true) (h22 : alive2 2 = false)
    (hall : ∀ n, aliveAll n = true) :
    (stop_autocaliweb_service alive).roundsIssued ≤ 3
    ∧ stop_autocaliweb_service alive2 = ⟨2, [.sigterm, .sigkill], true⟩
    ∧ stop_autocaliweb_service aliveAll = ⟨3, [.sigterm, .sigkill, .sigkill], false⟩ := by
  refine ⟨?_, ?_, ?_⟩
  · unfold stop_autocaliweb_service
    split
    · exact stopKillLoop_rounds_le alive 3 0 []
    · simp
  · simp [stop_autocaliweb_service, stopKillLoop, h20, h21, h22, signalForAttempt]
  · simp [stop_autocaliweb_service, stopKillLoop, hall, signalForAttempt]

/-- Witness for C5: a process set that survives the first round and vanishes
after the second, next to one that never dies. -/
theorem stop_autocaliweb_service_rounds_witness :
    (stop_autocaliweb_service (fun n => decide (n < 2))).roundsIssued ≤ 3
    ∧ stop_autocaliweb_service (fun n => decide (n < 2))
        = ⟨2, [.sigterm, .sigkill], true⟩
    ∧ stop_autocaliweb_service (fun _ => true)
        = ⟨3, [.sigterm, .sigkill, .sigkill], false⟩ :=
  stop_autocaliweb_service_rounds (fun n => decide (n < 2)) (fun n => decide (n < 2))
    (fun _ => true) (by decide) (by decide) (by decide) (fun _ => rfl)

/-- Target paths (`INSTALL_DIR`, `CONFIG_DIR`, `CALIBRE_LIB_DIR`) and legacy
defaults (`LEGACY_INSTALL_DIR`, `LEGACY_CONFIG_DIR`,
`LEGACY_CALIBRE_LIB_DIR`) as seen by the migration planner. -/
structure InstallPaths where
  installDir : String
  configDir : String
  calibreLibDir : String
  legacyInstallDir : String
  legacyConfigDir : String
  legacyCalibreLibDir : String
deriving DecidableEq, Repr

/-- Filesystem and database facts `detect_existing_legacy_installation` reads
when verifying the legacy components: directory existence, the per-component
sentinel data files, and the `sqlite_master` table count of the legacy
`app.db`. -/
structure LegacyFs where
  legacyInstallDirIsDir : Bool
  cpsInitExists : Bool
  legacyConfigDirIsDir : Bool
  appDbExists : Bool
  appDbNonEmpty : Bool
  appDbTableCount : Nat
  legacyCalibreDirIsDir : Bool
  metadataDbExists : Bool
deriving DecidableEq, Repr

/-- Component-selection logic of `detect_existing_legacy_installation`
(`migrate_components`): `app_source` requires the legacy install directory
with `cps/__init__.py` and a changed install path; `config_data` requires
the legacy config directory with an existing, non-empty `app.db`, a changed
config path, and a `sqlite_master` table count above 5; `calibre_library`
requires the legacy library directory with `metadata.db` and a changed
library path. -/
def detect_existing_legacy_installation_components
    (p : InstallPaths) (fs : LegacyFs) : List String :=
  (if fs.legacyInstallDirIsDir ∧ fs.cpsInitExists
      ∧ p.installDir ≠ p.legacyInstallDir then ["app_source"] else [])
  ++ (if fs.legacyConfigDirIsDir ∧ fs.appDbExists ∧ fs.appDbNonEmpty
      ∧ p.configDir ≠ p.legacyConfigDir
      ∧ 5 < fs.appDbTableCount then ["config_data"] else [])
  ++ (if fs.legacyCalibreDirIsDir ∧ fs.metadataDbExists
      ∧ p.calibreLibDir ≠ p.legacyCalibreLibDir then ["calibre_library"] else [])

/-- Counterexample to claim C3 as stated: with differing config paths, adding
the `config_data` sentinel (an existing, non-empty legacy `app.db`, here with
3 tables) to a legacy config directory that previously lacked it still does
not put `config_data` into the plan, because the table-count heuristic
(`> 5`) fails. -/
theorem legacy_components_sentinel_not_sufficient :
    (detect_existing_legacy_installation_components
        ⟨"/opt/autocaliweb", "/etc/autocaliweb", "/var/lib/acw",
          "/app/autocaliweb", "/config", "/calibre-library"⟩
        ⟨false, false, true, false, false, 3, false, false⟩ = []
      ∧ detect_existing_legacy_installation_components
        ⟨"/opt/autocaliweb", "/etc/autocaliweb", "/var/lib/acw",
          "/app/autocaliweb", "/config", "/calibre-library"⟩
        ⟨false, false, true, true, true, 3, false, false⟩ = [])
    ∧ ("/etc/autocaliweb" : String) ≠ "/config" := by
  refine ⟨⟨?_, ?_⟩, by decide⟩ <;>
    simp [detect_existing_legacy_installation_components]

/-- Claim C3 (corrected): adding a component's sentinel file to a legacy
directory adds the component to the plan when its legacy path differs from
its target path — directly for `app_source` and `calibre_library`, and for
`config_data` only together with the table-count heuristic (> 5 tables in
`app.db`); when a component's legacy path equals its target path it is
excluded from the plan regardless of any sentinel files. -/
theorem legacy_components_selection (p : InstallPaths) (fs : LegacyFs) :
    (fs.legacyInstallDirIsDir = true → fs.cpsInitExists = true →
        p.installDir ≠ p.legacyInstallDir →
        "app_source" ∈ detect_existing_legacy_installation_components p fs)
    ∧ (fs.legacyConfigDirIsDir = true → fs.appDbExists = true →
        fs.appDbNonEmpty = true → p.configDir ≠ p.legacyConfigDir →
        5 < fs.appDbTableCount →
        "config_data" ∈ detect_existing_legacy_installation_components p fs)
    ∧ (fs.legacyCalibreDirIsDir = true → fs.metadataDbExists = true →
        p.calibreLibDir ≠ p.legacyCalibreLibDir →
        "calibre_library" ∈ detect_existing_legacy_installation_components p fs)
    ∧ (p.installDir = p.legacyInstallDir →
        "app_source" ∉ detect_existing_legacy_installation_components p fs)
    ∧ (p.configDir = p.legacyConfigDir →
        "config_data" ∉ detect_existing_legacy_installation_components p fs)
    ∧ (p.calibreLibDir = p.legacyCalibreLibDir →
        "calibre_library" ∉ detect_existing_legacy_installation_components p fs) := by
  unfold detect_existing_legacy_installation_components
  refine ⟨?_, ?_, ?_, ?_, ?_, ?_⟩ <;> intros <;> simp_all

/-- Witness for C3 at concrete inputs: with all sentinels present and 6
tables, differing paths select all three components and equal paths select
none. -/
theorem legacy_components_selection_witness :
    ("app_source" ∈ detect_existing_legacy_installation_components
        ⟨"/opt/autocaliweb", "/etc/autocaliweb", "/var/lib/acw",
          "/app/autocaliweb", "/config", "/calibre-library"⟩
        ⟨true, true, true, true, true, 6, true, true⟩
      ∧ "config_data" ∈ detect_existing_legacy_installation_components
        ⟨"/opt/autocaliweb", "/etc/autocaliweb", "/var/lib/acw",
          "/app/autocaliweb", "/config", "/calibre-library"⟩
        ⟨true, true, true, true, true, 6, true, true⟩
      ∧ "calibre_library" ∈ detect_existing_legacy_installation_components
        ⟨"/opt/autocaliweb", "/etc/autocaliweb", "/var/lib/acw",
          "/app/autocaliweb", "/config", "/calibre-library"⟩
        ⟨true, true, true, true, true, 6, true, true⟩)
    ∧ ("app_source" ∉ detect_existing_legacy_installation_components
        ⟨"/app/autocaliweb", "/config", "/calibre-library",
          "/app/autocaliweb", "/config", "/calibre-library"⟩
        ⟨true, true, true, true, true, 6, true, true⟩
      ∧ "config_data" ∉ detect_existing_legacy_installation_components
        ⟨"/app/autocaliweb", "/config", "/calibre-library",
          "/app/autocaliweb", "/config", "/calibre-library"⟩
        ⟨true, true, true, true, true, 6, true, true⟩
      ∧ "calibre_library" ∉ detect_existing_legacy_installation_components
        ⟨"/app/autocaliweb", "/config", "/calibre-library",
          "/app/autocaliweb", "/config", "/calibre-library"⟩
        ⟨true, true, true, true, true, 6, true, true⟩) := by
  have hdiff := legacy_components_selection
    ⟨"/opt/autocaliweb", "/etc/autocaliweb", "/var/lib/acw",
      "/app/autocaliweb", "/config", "/calibre-library"⟩
    ⟨true, true, true, true, true, 6, true, true⟩
  have hsame := legacy_components_selection
    ⟨"/app/autocaliweb", "/config", "/calibre-library",
      "/app/autocaliweb", "/config", "/calibre-library"⟩
    ⟨true, true, true, true, true, 6, true, true⟩
  exact ⟨⟨hdiff.1 rfl rfl (by decide), hdiff.2.1 rfl rfl rfl (by decide) (by decide),
      hdiff.2.2.1 rfl rfl (by decide)⟩,
    ⟨hsame.2.2.2.1 rfl, hsame.2.2.2.2.1 rfl, hsame.2.2.2.2.2 rfl⟩⟩

/-- Fixed pattern list registered by `git_exclude_file_path` into
`.git/info/exclude`. -/
def gitExcludePatterns : List String :=
  ["scripts/manual_install_acw.sh", "ACW_RELEASE", "KEPUBIFY_RELEASE",
   "CALIBRE_RELEASE", "acw_update_notice", "/config", "/metadata_temp",
   "/metadata_change_logs", "/.venv"]

/-- Embedding of the pattern loop of `git_exclude_file_path`: the exclude
file is its list of lines; for each pattern in order, the line is appended
unless a line equal to the pattern is already present (`grep -qx`). -/
def git_exclude_file_path (file : List String) : List String :=
  gitExcludePatterns.foldl (fun acc p => if p ∈ acc then acc else acc ++ [p]) file

/-- Count of lines equal to `p` in the exclude file. -/
def excludeLineCount (p : String) (file : List String) : Nat :=
  (file.filter (fun l => l = p)).length

/-- Count of lines of the exclude file that match some registered pattern. -/
def matchingPatternLineCount (file : List String) : Nat :=
  (file.filter (fun l => l ∈ gitExcludePatterns)).length

/-- Lines already present survive the append-if-missing fold. -/
theorem excludeFold_mem_preserved (q : String) :
    ∀ (ps : List String) (acc : List String), q ∈ acc →
      q ∈ ps.foldl (fun acc p => if p ∈ acc then acc else acc ++ [p]) acc := by
  intro ps
  induction ps with
  | nil => intro acc h; simpa using h
  | cons p ps ih =>
    intro acc h
    simp only [List.foldl_cons]
    split
    · exact ih acc h
    · exact ih _ (List.mem_append_left _ h)

/-- Every listed pattern is present after the fold. -/
theorem excludeFold_mem_of_mem (q : String) :
    ∀ (ps : List String) (acc : List String), q ∈ ps →
      q ∈ ps.foldl (fun acc p => if p ∈ acc then acc else acc ++ [p]) acc := by
  intro ps
  induction ps with
  | nil => intro acc h; simp at h
  | cons p ps ih =>
    intro acc h
    rcases List.mem_cons.mp h with hq | hq
    · subst hq
      simp only [List.foldl_cons]
      split
      · exact excludeFold_mem_preserved q ps acc (by assumption)
      · exact excludeFold_mem_preserved q ps _ (List.mem_append_right _ (by simp))
    · simp only [List.foldl_cons]
      split
      · exact ih acc hq
      · exact ih _ hq

/-- The fold is the identity once every listed pattern is present. -/
theorem excludeFold_stable :
    ∀ (ps : List String) (acc : List String), (∀ p ∈ ps, p ∈ acc) →
      ps.foldl (fun acc p => if p ∈ acc then acc else acc ++ [p]) acc = acc := by
  intro ps
  induction ps with
  | nil => intro acc _; rfl
  | cons p ps ih =>
    intro acc h
    simp only [List.foldl_cons]
    rw [if_pos (h p (by simp))]
    exact ih acc (fun q hq => h q (List.mem_cons_of_mem _ hq))

/-- Patterns not in the remaining list never change their line count under
the fold. -/
theorem excludeFold_count_of_not_mem (q : String) :
    ∀ (ps : List String) (acc : List String), q ∉ ps →
      excludeLineCount q
          (ps.foldl (fun acc p => if p ∈ acc then acc else acc ++ [p]) acc)
        = excludeLineCount q acc := by
  intro ps
  induction ps with
  | nil => intro acc _; rfl
  | cons p ps ih =>
    intro acc h
    have hqp : q ≠ p := fun hq => h (hq ▸ List.mem_cons_self p ps)
    have hqs : q ∉ ps := fun hq => h (List.mem_cons_of_mem p hq)
    simp only [List.foldl_cons]
    split
    · exact ih acc hqs
    · rw [ih _ hqs]
      simp [excludeLineCount, List.filter_append, Ne.symm hqp]

/-- A line count of zero is exactly non-membership. -/
theorem excludeLineCount_eq_zero (q : String) (l : List String) :
    excludeLineCount q l = 0 ↔ q ∉ l := by
  simp only [excludeLineCount, List.length_eq_zero, List.filter_eq_nil]
  constructor
  · intro h hq
    have := h q hq
    simp at this
  · intro h a ha
    simp only [decide_eq_true_eq]
    exact fun haq => h (haq ▸ ha)

/-- After the fold, each listed pattern occurs exactly once, provided the
pattern list has no duplicates and the initial file holds it at most once. -/
theorem excludeFold_count_eq_one (q : String) :
    ∀ (ps : List String) (acc : List String), ps.Nodup → q ∈ ps →
      excludeLineCount q acc ≤ 1 →
      excludeLineCount q
          (ps.foldl (fun acc p => if p ∈ acc then acc else acc ++ [p]) acc)
        = 1 := by
  intro ps
  induction ps with
  | nil => intro acc _ h _; simp at h
  | cons p ps ih =>
    intro acc hnd hq hle
    have hpns : p ∉ ps := (List.nodup_cons.mp hnd).1
    have hnds : ps.Nodup := (List.nodup_cons.mp hnd).2
    rcases List.mem_cons.mp hq with hqp | hqs
    · subst hqp
      simp only [List.foldl_cons]
      split
      · rename_i hmem
        rw [excludeFold_count_of_not_mem q ps acc hpns]
        have h1 : excludeLineCount q acc ≠ 0 :=
          fun h0 => ((excludeLineCount_eq_zero q acc).mp h0) hmem
        omega
      · rename_i hmem
        rw [excludeFold_count_of_not_mem q ps _ hpns]
        have h0 : excludeLineCount q acc = 0 := (excludeLineCount_eq_zero q acc).mpr hmem
        simp [excludeLineCount, List.filter_append] at h0 ⊢
        exact h0
    · have hqp : q ≠ p := fun hqp => hpns (hqp ▸ hqs)
      simp only [List.foldl_cons]
      split
      · exact ih acc hnds hqs hle
      · refine ih _ hnds hqs ?_
        simpa [excludeLineCount, List.filter_append, Ne.symm hqp] using hle

/-- Counting a single line against each pattern of a duplicate-free list
contributes one exactly when the line is a pattern. -/
theorem sum_map_indicator (a : String) :
    ∀ ps : List String, ps.Nodup →
      ((ps.map (fun p => if a = p then 1 else 0)).sum : Nat)
        = if a ∈ ps then 1 else 0 := by
  intro ps
  induction ps with
  | nil => intro _; simp
  | cons p ps ih =>
    intro hnd
    have hpns : p ∉ ps := (List.nodup_cons.mp hnd).1
    have hnds : ps.Nodup := (List.nodup_cons.mp hnd).2
    simp only [List.map_cons, List.sum_cons, ih hnds]
    by_cases hap : a = p
    · subst hap
      simp [hpns]
    · simp [hap, List.mem_cons]

/-- Sum over a list of a pointwise sum splits. -/
theorem sum_map_add_split (f g : String → Nat) :
    ∀ ps : List String,
      (ps.map (fun p => f p + g p)).sum = (ps.map f).sum + (ps.map g).sum := by
  intro ps
  induction ps with
  | nil => rfl
  | cons p ps ih => simp only [List.map_cons, List.sum_cons, ih]; omega

/-- The count of lines matching some pattern is the sum of the per-pattern
line counts, for a duplicate-free pattern list. -/
theorem length_filter_mem_eq_sum :
    ∀ (l ps : List String), ps.Nodup →
      ((l.filter (fun x => x ∈ ps)).length : Nat)
        = (ps.map (fun p => excludeLineCount p l)).sum := by
  intro l
  induction l with
  | nil =>
    intro ps _
    induction ps with
    | nil => rfl
    | cons p ps ihp => simpa [excludeLineCount] using ihp (by simp_all [List.nodup_cons])
  | cons a t ih =>
    intro ps hnd
    have hcount : ∀ p : String, excludeLineCount p (a :: t)
        = (if a = p then 1 else 0) + excludeLineCount p t := by
      intro p
      by_cases hap : a = p <;> simp [excludeLineCount, hap] <;> omega
    have hmap : (ps.map (fun p => excludeLineCount p (a :: t))).sum
        = (ps.map (fun p => if a = p then 1 else 0)).sum
          + (ps.map (fun p => excludeLineCount p t)).sum := by
      rw [← sum_map_add_split]
      exact congrArg List.sum (List.map_congr_left (fun p _ => hcount p))
    rw [hmap, sum_map_indicator a ps hnd, ← ih ps hnd]
    by_cases hmem : a ∈ ps <;> simp [hmem] <;> omega

/-- Sum over a list of a function that is 1 on every element is the list
length. -/
theorem sum_map_eq_length (f : String → Nat) :
    ∀ ps : List String, (∀ p ∈ ps, f p = 1) → (ps.map f).sum = ps.length := by
  intro ps
  induction ps with
  | nil => intro _; rfl
  | cons p ps ih =>
    intro h
    simp only [List.map_cons, List.sum_cons, List.length_cons,
      h p (by simp), ih (fun q hq => h q (List.mem_cons_of_mem p hq))]
    omega

/-- Counterexample to claim C6 as stated: against an exclude file that
already holds the line `/config` twice, one registration run leaves 10 lines
matching the 9-pattern list, not 9 — the loop skips patterns that are
present but never removes pre-existing duplicates. -/
theorem git_exclude_file_path_duplicate_preserved :
    matchingPatternLineCount (git_exclude_file_path ["/config", "/config"]) = 10
    ∧ gitExcludePatterns.length = 9
    ∧ matchingPatternLineCount (git_exclude_file_path ["/config", "/config"])
        ≠ gitExcludePatterns.length := by
  refine ⟨?_, rfl, ?_⟩ <;> decide

/-- Claim C6 (corrected): the registration loop is idempotent — a second run
changes nothing, so repeated runs never duplicate an entry — and whenever
the starting exclude file holds each pattern at most once, the number of
lines matching the pattern list equals the pattern-list length after one run
and after any further runs; pre-existing duplicate pattern lines, however,
are preserved rather than de-duplicated, so the count statement needs that
at-most-once precondition. -/
theorem git_exclude_file_path_idempotent_count (file : List String)
    (h : ∀ p ∈ gitExcludePatterns, excludeLineCount p file ≤ 1) :
    git_exclude_file_path (git_exclude_file_path file) = git_exclude_file_path file
    ∧ matchingPatternLineCount (git_exclude_file_path file)
        = gitExcludePatterns.length
    ∧ matchingPatternLineCount (git_exclude_file_path (git_exclude_file_path file))
        = gitExcludePatterns.length := by
  have hnd : gitExcludePatterns.Nodup := by decide
  have hidem : git_exclude_file_path (git_exclude_file_path file)
      = git_exclude_file_path file := by
    unfold git_exclude_file_path
    exact excludeFold_stable gitExcludePatterns _
      (fun p hp => excludeFold_mem_of_mem p gitExcludePatterns file hp)
  have hcount : matchingPatternLineCount (git_exclude_file_path file)
      = gitExcludePatterns.length := by
    unfold matchingPatternLineCount
    rw [length_filter_mem_eq_sum _ gitExcludePatterns hnd]
    exact sum_map_eq_length _ gitExcludePatterns
      (fun p hp => excludeFold_count_eq_one p gitExcludePatterns file hnd hp (h p hp))
  exact ⟨hidem, hcount, by rw [hidem, hcount]⟩

/-- Witness for C6: one run over an initially empty exclude file yields
exactly the 9 pattern lines, and a second run changes nothing. -/
theorem git_exclude_file_path_idempotent_count_witness :
    git_exclude_file_path (git_exclude_file_path []) = git_exclude_file_path []
    ∧ matchingPatternLineCount (git_exclude_file_path []) = gitExcludePatterns.length
    ∧ matchingPatternLineCount (git_exclude_file_path (git_exclude_file_path []))
        = gitExcludePatterns.length :=
  git_exclude_file_path_idempotent_count [] (by decide)

/-- Severity of a line written to the migration log (`print_status`,
`print_warning`, `print_error` with the migration log as second argument). -/
inductive LogSeverity where
  | status
  | warning
  | error
deriving DecidableEq, Repr

/-- Inputs of `migrate_existing_installation`: the path pairs, the
`[[ -s $CALIBRE_LIB_DIR/metadata.db ]]` test guarding the overwrite prompt,
the user's reply to that prompt (`true` for `y`), and the exit status of the
rsync transfer per component. -/
structure MigEnv where
  paths : InstallPaths
  targetMetadataNonEmpty : Bool
  overwriteReply : Bool
  transferOk : String → Bool

/-- One arm of the `case "$component"` switch in
`migrate_existing_installation`: the log lines it appends (restricted to the
completion, failure, skip, cancel and unknown-component messages; progress
chatter is elided) and `some code` when the arm calls `exit code`.  Only the
`app_source` arm exits (on transfer failure); `config_data` and
`calibre_library` failures just log an error and fall through, and declining
the library overwrite prompt runs `continue`. -/
def migrateComponentStep (env : MigEnv) (c : String) :
    List (LogSeverity × String) × Option Nat :=
  if c = "app_source" then
    if env.paths.legacyInstallDir ≠ "" ∧ env.paths.legacyInstallDir ≠ env.paths.installDir then
      if env.transferOk "app_source" then
        ([(.status, "Application source migration complete.")], none)
      else
        ([(.error, "Failed to migrate application source.")], some 1)
    else
      ([(.status, "Application source migration skipped.")], none)
  else if c = "config_data" then
    if env.paths.legacyConfigDir ≠ "" ∧ env.paths.legacyConfigDir ≠ env.paths.configDir then
      if env.transferOk "config_data" then
        ([(.status, "Configuration data migration complete.")], none)
      else
        ([(.error, "Failed to migrate configuration data.")], none)
    else
      ([(.status, "Configuration data migration skipped.")], none)
  else if c = "calibre_library" then
    if env.targetMetadataNonEmpty = true ∧ env.overwriteReply = false then
      ([(.error, "Migrating Calibre library cancelled by user.")], none)
    else if env.paths.legacyCalibreLibDir ≠ ""
        ∧ env.paths.legacyCalibreLibDir ≠ env.paths.calibreLibDir then
      if env.transferOk "calibre_library" then
        ([(.status, "Calibre library migration complete.")], none)
      else
        ([(.error, "Failed to migrate Calibre library.")], none)
    else
      ([(.status, "Calibre library migration skipped.")], none)
  else
    ([(.warning, "Unknown component specified for migration: " ++ c ++ ".")], none)

/-- Result of a migration run: `exitCode = some c` when the run aborted the
installation with `exit c`, `none` when every requested component was
processed; `log` is the migration-log content, in order. -/
structure MigRun where
  exitCode : Option Nat
  log : List (LogSeverity × String)
deriving DecidableEq, Repr

/-- Embedding of the component loop of `migrate_existing_installation`:
components are processed in order, each arm appends its log lines, and an
arm that exits aborts the rest of the loop. -/
def migrate_existing_installation (env : MigEnv) : List String → MigRun
  | [] => ⟨none, []⟩
  | c :: rest =>
    let step := migrateComponentStep env c
    match step.2 with
    | some code => ⟨some code, step.1⟩
    | none =>
      let r := migrate_existing_installation env rest
      ⟨r.exitCode, step.1 ++ r.log⟩

/-- Arms other than `app_source` never exit. -/
theorem migrateComponentStep_no_exit (env : MigEnv) (c : String)
    (h : c ≠ "app_source") : (migrateComponentStep env c).2 = none := by
  simp only [migrateComponentStep, if_neg h]
  split_ifs <;> rfl

/-- No arm exits when the `app_source` transfer succeeds. -/
theorem migrateComponentStep_no_exit_of_ok (env : MigEnv) (c : String)
    (h : env.transferOk "app_source" = true) :
    (migrateComponentStep env c).2 = none := by
  by_cases hc : c = "app_source"
  · subst hc
    simp only [migrateComponentStep, if_pos rfl]
    split_ifs <;> simp_all
  · exact migrateComponentStep_no_exit env c hc

/-- When no arm exits, every log line of a requested component's arm appears
in the run's migration log. -/
theorem migrate_existing_installation_log_mem (env : MigEnv)
    (h : env.transferOk "app_source" = true) :
    ∀ (comps : List String) (c : String), c ∈ comps →
      ∀ e ∈ (migrateComponentStep env c).1,
        e ∈ (migrate_existing_installation env comps).log := by
  intro comps
  induction comps with
  | nil => intro c hc; simp at hc
  | cons d rest ih =>
    intro c hc e he
    simp only [migrate_existing_installation]
    rw [migrateComponentStep_no_exit_of_ok env d h]
    simp only [List.mem_append]
    rcases List.mem_cons.mp hc with hcd | hcr
    · exact Or.inl (hcd ▸ he)
    · exact Or.inr (ih c hcr e he)

/-- When no arm exits, the run processes the full component list and
finishes without an exit code. -/
theorem migrate_existing_installation_no_exit (env : MigEnv)
    (h : env.transferOk "app_source" = true) :
    ∀ comps : List String,
      (migrate_existing_installation env comps).exitCode = none := by
  intro comps
  induction comps with
  | nil => rfl
  | cons d rest ih =>
    simp only [migrate_existing_installation]
    rw [migrateComponentStep_no_exit_of_ok env d h]
    simpa using ih

/-- A failing `app_source` transfer (with its paths set and differing) makes
the run exit with code 1. -/
theorem migrate_existing_installation_app_source_fatal (env : MigEnv)
    (hok : env.transferOk "app_source" = false)
    (h1 : env.paths.legacyInstallDir ≠ "")
    (h2 : env.paths.legacyInstallDir ≠ env.paths.installDir) :
    ∀ comps : List String, "app_source" ∈ comps →
      (migrate_existing_installation env comps).exitCode = some 1 := by
  intro comps
  induction comps with
  | nil => intro hc; simp at hc
  | cons d rest ih =>
    intro hc
    by_cases hd : d = "app_source"
    · subst hd
      have hstep : (migrateComponentStep env "app_source").2 = some 1 := by
        simp [migrateComponentStep, h1, h2, hok]
      simp only [migrate_existing_installation]
      rw [hstep]
    · have hcr : "app_source" ∈ rest := by
        rcases List.mem_cons.mp hc with hcd | hcr
        · exact absurd hcd.symm hd
        · exact hcr
      simp only [migrate_existing_installation]
      rw [migrateComponentStep_no_exit env d hd]
      simpa using ih hcr

/-- Claim C8: in a migration run, a failing `app_source` transfer (with its
source set and differing from its target) terminates the installation with
exit code 1, while a failing `config_data` or `calibre_library` transfer
under the analogous conditions writes an error line to the migration log and
the run still processes the full component list (no exit code). -/
theorem migrate_transfer_failure_severity (env : MigEnv) (comps : List String) :
    ("app_source" ∈ comps → env.transferOk "app_source" = false →
      env.paths.legacyInstallDir ≠ "" →
      env.paths.legacyInstallDir ≠ env.paths.installDir →
      (migrate_existing_installation env comps).exitCode = some 1)
    ∧ (env.transferOk "app_source" = true →
      (migrate_existing_installation env comps).exitCode = none)
    ∧ (env.transferOk "app_source" = true → "config_data" ∈ comps →
      env.transferOk "config_data" = false →
      env.paths.legacyConfigDir ≠ "" →
      env.paths.legacyConfigDir ≠ env.paths.configDir →
      (LogSeverity.error, "Failed to migrate configuration data.")
        ∈ (migrate_existing_installation env comps).log)
    ∧ (env.transferOk "app_source" = true → "calibre_library" ∈ comps →
      env.transferOk "calibre_library" = false →
      (env.targetMetadataNonEmpty = false ∨ env.overwriteReply = true) →
      env.paths.legacyCalibreLibDir ≠ "" →
      env.paths.legacyCalibreLibDir ≠ env.paths.calibreLibDir →
      (LogSeverity.error, "Failed to migrate Calibre library.")
        ∈ (migrate_existing_installation env comps).log) := by
  refine ⟨?_, ?_, ?_, ?_⟩
  · intro hc hok h1 h2
    exact migrate_existing_installation_app_source_fatal env hok h1 h2 comps hc
  · intro hok
    exact migrate_existing_installation_no_exit env hok comps
  · intro hok hc hcfg h1 h2
    refine migrate_existing_installation_log_mem env hok comps "config_data" hc _ ?_
    simp [migrateComponentStep, h1, h2, hcfg]
  · intro hok hc hcal hprompt h1 h2
    refine migrate_existing_installation_log_mem env hok comps "calibre_library" hc _ ?_
    rcases hprompt with hp | hp <;> simp [migrateComponentStep, h1, h2, hcal, hp]

/-- Witness for C8: with all legacy paths set and differing, a run where
every transfer fails exits with code 1 at `app_source`, while a run where
only `app_source` succeeds finishes the whole list and logs both other
failures as errors. -/
theorem migrate_transfer_failure_severity_witness :
    (migrate_existing_installation
        ⟨⟨"/opt/autocaliweb", "/etc/autocaliweb", "/var/lib/acw",
          "/app/autocaliweb", "/config", "/calibre-library"⟩, false, true,
          fun _ => false⟩
        ["app_source", "config_data"]).exitCode = some 1
    ∧ (migrate_existing_installation
        ⟨⟨"/opt/autocaliweb", "/etc/autocaliweb", "/var/lib/acw",
          "/app/autocaliweb", "/config", "/calibre-library"⟩, false, true,
          fun c => c == "app_source"⟩
        ["app_source", "config_data", "calibre_library"]).exitCode = none
    ∧ (LogSeverity.error, "Failed to migrate configuration data.")
        ∈ (migrate_existing_installation
        ⟨⟨"/opt/autocaliweb", "/etc/autocaliweb", "/var/lib/acw",
          "/app/autocaliweb", "/config", "/calibre-library"⟩, false, true,
          fun c => c == "app_source"⟩
        ["app_source", "config_data", "calibre_library"]).log
    ∧ (LogSeverity.error, "Failed to migrate Calibre library.")
        ∈ (migrate_existing_installation
        ⟨⟨"/opt/autocaliweb", "/etc/autocaliweb", "/var/lib/acw",
          "/app/autocaliweb", "/config", "/calibre-library"⟩, false, true,
          fun c => c == "app_source"⟩
        ["app_source", "config_data", "calibre_library"]).log :=
  ⟨(migrate_transfer_failure_severity _ _).1 (by decide) rfl (by decide) (by decide),
   (migrate_transfer_failure_severity _ _).2.1 rfl,
   (migrate_transfer_failure_severity _ _).2.2.1 rfl (by decide) rfl
     (by decide) (by decide),
   (migrate_transfer_failure_severity _ _).2.2.2 rfl (by decide) rfl
     (Or.inl rfl) (by decide) (by decide)⟩

/-- Legacy directories measured for the space estimate (`dirs_to_measure`),
in the fixed app/config/library order, restricted to selected components. -/
def dirsToMeasure (p : InstallPaths) (comps : List String) : List String :=
  (if "app_source" ∈ comps then [p.legacyInstallDir] else [])
  ++ (if "config_data" ∈ comps then [p.legacyConfigDir] else [])
  ++ (if "calibre_library" ∈ comps then [p.legacyCalibreLibDir] else [])

/-- Target paths collected for the mount-point scan
(`target_filesystems_raw`), possibly with duplicates. -/
def targetFilesystemsRaw (p : InstallPaths) (comps : List String) : List String :=
  (if "app_source" ∈ comps then [p.installDir] else [])
  ++ (if "config_data" ∈ comps then [p.configDir] else [])
  ++ (if "calibre_library" ∈ comps then [p.calibreLibDir] else [])

/-- Unique mount points of the target paths
(`unique_target_mount_points`): `mountOf` models walking up to the nearest
existing ancestor and querying `df` for its mount point (`none` or `""` when
that fails); order is preserved and duplicates and empty results are
dropped. -/
def uniqueTargetMountPoints (mountOf : String → Option String)
    (raw : List String) : List String :=
  raw.foldl (fun acc fsPath =>
    match mountOf fsPath with
    | none => acc
    | some mp => if mp = "" then acc else if mp ∈ acc then acc else acc ++ [mp]) []

/-- Environment of `detect_existing_legacy_installation`: the executor
inputs, the legacy filesystem facts, the size/mount/free-space oracles, and
the `ALLOW_LOW_SPACE`, `ACCEPT_ALL` and migration-prompt-reply inputs. -/
structure DetectEnv where
  mig : MigEnv
  fs : LegacyFs
  dirSizeMb : String → Option Nat
  mountOf : String → Option String
  availKbOn : String → Option Nat
  allowLowSpace : Bool
  acceptAll : Bool
  migrationReply : Bool

/-- Whether the migration disk-space check aborts the process: some unique
target mount point fails `check_disk_space` fatally against the 1.2-scaled
total legacy size. -/
def migrationSpaceFatal (env : DetectEnv) (comps : List String) : Bool :=
  let dirs := dirsToMeasure env.mig.paths comps
  if dirs.isEmpty then false
  else
    let required :=
      requiredMigrationMb (get_total_directory_size_mb env.dirSizeMb dirs)
    (uniqueTargetMountPoints env.mountOf
        (targetFilesystemsRaw env.mig.paths comps)).any
      (fun mp => check_disk_space required (env.availKbOn mp) env.allowLowSpace
        == SpaceCheckResult.fatalExit)

/-- Outcome of `detect_existing_legacy_installation`: no migration needed,
process aborted by the space check (`exit 1` inside `check_disk_space`),
process aborted by a declined migration confirmation (`exit 1`), or the
executor was invoked on the selected components. -/
inductive DetectOutcome where
  | noMigrationNeeded
  | exitedInsufficientSpace
  | exitedDeclined
  | migrated (comps : List String) (run : MigRun)
deriving DecidableEq, Repr

/-- Embedding of the migration half of `detect_existing_legacy_installation`:
select components, run the space check against each unique target mount
point, ask for confirmation unless `ACCEPT_ALL=1` (declining runs `exit 1`
before any migration), then hand the selected components to
`migrate_existing_installation`. -/
def detect_existing_legacy_installation (env : DetectEnv) : DetectOutcome :=
  let comps := detect_existing_legacy_installation_components env.mig.paths env.fs
  if comps.isEmpty then .noMigrationNeeded
  else if migrationSpaceFatal env comps then .exitedInsufficientSpace
  else if env.acceptAll = false ∧ env.migrationReply = false then .exitedDeclined
  else .migrated comps (migrate_existing_installation env.mig comps)

/-- Counterexample to claim C9 as stated: a concrete run in which the
Calibre-library overwrite confirmation prompt is declined (with the
unattended-accept flag unset), yet the process does not exit non-zero — the
executor logs `Migrating Calibre library cancelled by user.`, skips the
declined component, and the run finishes with no exit code. -/
theorem migration_decline_not_always_fatal :
    detect_existing_legacy_installation
        ⟨⟨⟨"/app/autocaliweb", "/config", "/var/lib/acw",
            "/app/autocaliweb", "/config", "/calibre-library"⟩,
            true, false, fun _ => true⟩,
          ⟨false, false, false, false, false, 0, true, true⟩,
          fun _ => some 100, fun _ => some "/", fun _ => some 1024000000,
          false, false, true⟩
      = DetectOutcome.migrated ["calibre_library"]
          ⟨none, [(LogSeverity.error, "Migrating Calibre library cancelled by user.")]⟩ := by
  decide

/-- Claim C9 (corrected): declining the planner's migration confirmation
prompt with the unattended-accept flag unset makes the process exit non-zero
before any migration of the selected components runs; the Calibre-library
overwrite prompt inside the executor, however, is not fatal — declining it
logs an error, skips only that component, and the run continues. -/
theorem migration_confirmation_decline (env : DetectEnv) (m : MigEnv) :
    (detect_existing_legacy_installation_components env.mig.paths env.fs ≠ [] →
      migrationSpaceFatal env
          (detect_existing_legacy_installation_components env.mig.paths env.fs) = false →
      env.acceptAll = false → env.migrationReply = false →
      detect_existing_legacy_installation env = .exitedDeclined)
    ∧ (m.targetMetadataNonEmpty = true → m.overwriteReply = false →
      (migrate_existing_installation m ["calibre_library"]).exitCode = none
      ∧ (LogSeverity.error, "Migrating Calibre library cancelled by user.")
          ∈ (migrate_existing_installation m ["calibre_library"]).log) := by
  constructor
  · intro hne hsp hacc hrep
    have hie : (detect_existing_legacy_installation_components
        env.mig.paths env.fs).isEmpty = false := by
      rcases hc : detect_existing_legacy_installation_components env.mig.paths env.fs with
        _ | ⟨a, l⟩
      · exact absurd hc hne
      · rfl
    simp only [detect_existing_legacy_installation, hie, hsp, Bool.false_eq_true,
      if_false]
    rw [if_pos ⟨hacc, hrep⟩]
  · intro hmeta hreply
    have hstep : migrateComponentStep m "calibre_library"
        = ([(LogSeverity.error, "Migrating Calibre library cancelled by user.")], none) := by
      simp [migrateComponentStep, hmeta, hreply]
    constructor
    · simp only [migrate_existing_installation, hstep]
    · simp only [migrate_existing_installation, hstep]
      simp

/-- Witness for C9: the planner prompt declined with `ACCEPT_ALL` unset
exits before migrating, and a concrete executor environment shows the
overwrite prompt decline only skipping the component. -/
theorem migration_confirmation_decline_witness :
    detect_existing_legacy_installation
        ⟨⟨⟨"/app/autocaliweb", "/config", "/var/lib/acw",
            "/app/autocaliweb", "/config", "/calibre-library"⟩,
            true, false, fun _ => true⟩,
          ⟨false, false, false, false, false, 0, true, true⟩,
          fun _ => some 100, fun _ => some "/", fun _ => some 1024000000,
          false, false, false⟩ = DetectOutcome.exitedDeclined
    ∧ ((migrate_existing_installation
          ⟨⟨"/app/autocaliweb", "/config", "/var/lib/acw",
            "/app/autocaliweb", "/config", "/calibre-library"⟩,
            true, false, fun _ => true⟩ ["calibre_library"]).exitCode = none
      ∧ (LogSeverity.error, "Migrating Calibre library cancelled by user.")
          ∈ (migrate_existing_installation
          ⟨⟨"/app/autocaliweb", "/config", "/var/lib/acw",
            "/app/autocaliweb", "/config", "/calibre-library"⟩,
            true, false, fun _ => true⟩ ["calibre_library"]).log) :=
  ⟨(migration_confirmation_decline _
      ⟨⟨"/app/autocaliweb", "/config", "/var/lib/acw",
        "/app/autocaliweb", "/config", "/calibre-library"⟩,
        true, false, fun _ => true⟩).1
      (by decide) (by decide) rfl rfl,
   (migration_confirmation_decline
      ⟨⟨⟨"/app/autocaliweb", "/config", "/var/lib/acw",
          "/app/autocaliweb", "/config", "/calibre-library"⟩,
          true, false, fun _ => true⟩,
        ⟨false, false, false, false, false, 0, true, true⟩,
        fun _ => some 100, fun _ => some "/", fun _ => some 1024000000,
        false, false, false⟩ _).2 rfl rfl⟩
